import Mathlib

/-!
Shallow embedding of the webengine repository's core (src/geometry.rs,
src/collision.rs, src/renderer.rs) for checking the specification's claims.

Machine `f32` arithmetic is modelled by exact rationals (`ℚ`): every formula
is transcribed from the source, with `f32::EPSILON = 2^-23` kept as the
rational constant it denotes.  `glam::Mat4` is modelled as a 4x4 rational
matrix; `glam`'s `Mat4::inverse` (a cofactor/adjugate expansion) is modelled
as `det⁻¹ • adjugate`, which is the same formula in exact arithmetic.
Trigonometric functions are transcendental, so `Transform::rotate` receives
the cosine and sine of its angle as arguments in place of the angle itself.
-/

set_option maxHeartbeats 1000000

abbrev Mat4 := Matrix (Fin 4) (Fin 4) ℚ

/-- Model of `glam::Vec3` with exact rational coordinates. -/
structure Vec3 where
  x : ℚ
  y : ℚ
  z : ℚ
  deriving DecidableEq

/-- Model of `glam::Vec3::extend`: append a `w` component. -/
def Vec3.extend (v : Vec3) (w : ℚ) : Fin 4 → ℚ := ![v.x, v.y, v.z, w]

/-- Model of `glam::Vec4::truncate`: drop the `w` component. -/
def Vec4.truncate (v : Fin 4 → ℚ) : Vec3 := ⟨v 0, v 1, v 2⟩

/-- Model of `glam::Mat4::from_translation` (column-major in glam; written
here row-major: the translation sits in the last column). -/
def Mat4.from_translation (t : Vec3) : Mat4 :=
  !![1, 0, 0, t.x;
     0, 1, 0, t.y;
     0, 0, 1, t.z;
     0, 0, 0, 1]

/-- Model of `glam::Mat4::from_scale`. -/
def Mat4.from_scale (s : Vec3) : Mat4 :=
  !![s.x, 0,   0,   0;
     0,   s.y, 0,   0;
     0,   0,   s.z, 0;
     0,   0,   0,   1]

/-- Model of `glam::Mat4::from_axis_angle` (Rodrigues rotation); `c` and `s`
stand for the cosine and sine of the angle, which the source obtains from
`angle.sin_cos()`. -/
def Mat4.from_axis_angle (axis : Vec3) (c s : ℚ) : Mat4 :=
  let omc := 1 - c
  !![axis.x * axis.x * omc + c,      axis.x * axis.y * omc - axis.z * s, axis.x * axis.z * omc + axis.y * s, 0;
     axis.x * axis.y * omc + axis.z * s, axis.y * axis.y * omc + c,      axis.y * axis.z * omc - axis.x * s, 0;
     axis.x * axis.z * omc - axis.y * s, axis.y * axis.z * omc + axis.x * s, axis.z * axis.z * omc + c,      0;
     0, 0, 0, 1]

/-- Model of `glam::Mat4::orthographic_rh(left, right, bottom, top, near, far)`. -/
def Mat4.orthographic_rh (left right bottom top near far : ℚ) : Mat4 :=
  let rcp_width := 1 / (right - left)
  let rcp_height := 1 / (top - bottom)
  let r := 1 / (near - far)
  !![rcp_width + rcp_width, 0, 0, -(left + right) * rcp_width;
     0, rcp_height + rcp_height, 0, -(top + bottom) * rcp_height;
     0, 0, r, r * near;
     0, 0, 0, 1]

/-- Model of `glam::Mat4::inverse`: the source computes the cofactor
(adjugate-over-determinant) inverse; over exact rationals that is
`det⁻¹ • adjugate`. -/
def Mat4.inverse (m : Mat4) : Mat4 := m.det⁻¹ • m.adjugate

/-- Model of `glam::Mat4::to_cols_array_2d`: the column-major array cache
kept in `Transform.raw`. -/
def Mat4.to_cols_array_2d (m : Mat4) : Fin 4 → Fin 4 → ℚ := fun c r => m r c

/-- Model of `geometry::Transform` (src/geometry.rs): a matrix plus the
cached column-major serialization kept in sync at construction. -/
structure Transform where
  matrix : Mat4
  raw : Fin 4 → Fin 4 → ℚ

/-- `Transform::from_matrix` (src/geometry.rs). -/
def Transform.from_matrix (matrix : Mat4) : Transform :=
  ⟨matrix, matrix.to_cols_array_2d⟩

/-- `Transform::new` (src/geometry.rs): the identity matrix. -/
def Transform.new : Transform := Transform.from_matrix 1

/-- `Transform::translate` (src/geometry.rs): right-multiplies a translation
matrix and returns a new value. -/
def Transform.translate (t : Transform) (translation : Vec3) : Transform :=
  Transform.from_matrix (t.matrix * Mat4.from_translation translation)

/-- `Transform::rotate` (src/geometry.rs): right-multiplies an axis-angle
rotation matrix and returns a new value (cosine and sine passed explicitly). -/
def Transform.rotate (t : Transform) (c s : ℚ) (axis : Vec3) : Transform :=
  Transform.from_matrix (t.matrix * Mat4.from_axis_angle axis c s)

/-- `Transform::scale` (src/geometry.rs): right-multiplies a scale matrix
and returns a new value. -/
def Transform.scale (t : Transform) (s : Vec3) : Transform :=
  Transform.from_matrix (t.matrix * Mat4.from_scale s)

/-- `Transform::ortographic_size_invariant` (src/geometry.rs). -/
def Transform.ortographic_size_invariant : Transform :=
  Transform.from_matrix (Mat4.orthographic_rh 0 1 1 0 (-100) 100)

/-- `Transform::project` (src/geometry.rs): apply the matrix to the
homogeneous extension of the point and truncate. -/
def Transform.project (t : Transform) (point : Vec3) : Vec3 :=
  Vec4.truncate (t.matrix.mulVec (point.extend 1))

/-- `Transform::map_towards` (src/geometry.rs):
`inverse(other.matrix) * self.matrix`. -/
def Transform.map_towards (t other : Transform) : Transform :=
  Transform.from_matrix (other.matrix.inverse * t.matrix)

/-! Collision model (src/collision.rs). -/

/-- `collision::VertexCollision`: which of the four local corners of one
space sit inside the other space. -/
structure VertexCollision where
  top_left : Bool
  bottom_left : Bool
  bottom_right : Bool
  top_right : Bool
  deriving DecidableEq

/-- `collision::EdgeCollision`: intersection points on each of space A's
four edges. -/
structure EdgeCollision where
  top_edge : List Vec3
  left_edge : List Vec3
  bottom_edge : List Vec3
  right_edge : List Vec3
  deriving DecidableEq

/-- `collision::CollisionInfo`. -/
structure CollisionInfo where
  my_vertices_inside : VertexCollision
  other_vertices_inside : VertexCollision
  my_edge_intersections : EdgeCollision
  other_space_inside_me : Bool
  i_am_inside_other : Bool
  intersection_points : List Vec3
  deriving DecidableEq

/-- `VertexCollision::any` (src/collision.rs). -/
def VertexCollision.any (v : VertexCollision) : Bool :=
  v.top_left || v.bottom_left || v.bottom_right || v.top_right

/-- `VertexCollision::count` (src/collision.rs). -/
def VertexCollision.count (v : VertexCollision) : Nat :=
  ([v.top_left, v.bottom_left, v.bottom_right, v.top_right].filter (fun b => b)).length

/-- `EdgeCollision::any` (src/collision.rs). -/
def EdgeCollision.any (e : EdgeCollision) : Bool :=
  !e.top_edge.isEmpty || !e.left_edge.isEmpty || !e.bottom_edge.isEmpty || !e.right_edge.isEmpty

/-- `EdgeCollision::total_intersections` (src/collision.rs). -/
def EdgeCollision.total_intersections (e : EdgeCollision) : Nat :=
  e.top_edge.length + e.left_edge.length + e.bottom_edge.length + e.right_edge.length

/-- `CollisionInfo::has_collision` (src/collision.rs lines 103-109). -/
def CollisionInfo.has_collision (i : CollisionInfo) : Bool :=
  i.my_vertices_inside.any
    || i.other_vertices_inside.any
    || i.my_edge_intersections.any
    || i.other_space_inside_me
    || i.i_am_inside_other

/-- The inclusive `[0,1]x[0,1]` range check used on each projected corner in
`CollisionInfo::check_vertices_in_space` (src/collision.rs line 155):
`corner.x >= 0.0 && corner.x <= 1.0 && corner.y >= 0.0 && corner.y <= 1.0`. -/
def in_unit_bounds (corner : Vec3) : Bool :=
  decide (0 ≤ corner.x) && decide (corner.x ≤ 1)
    && decide (0 ≤ corner.y) && decide (corner.y ≤ 1)

/-- `CollisionInfo::check_vertices_in_space` (src/collision.rs lines 138-164):
project the four local corners of `f` into `t`'s local frame and apply the
inclusive range check. -/
def CollisionInfo.check_vertices_in_space (f t : Transform) : VertexCollision :=
  let transform := f.map_towards t
  { top_left := in_unit_bounds (transform.project ⟨0, 0, 0⟩)
    bottom_left := in_unit_bounds (transform.project ⟨0, 1, 0⟩)
    bottom_right := in_unit_bounds (transform.project ⟨1, 1, 0⟩)
    top_right := in_unit_bounds (transform.project ⟨1, 0, 0⟩) }

/-- `CollisionInfo::get_world_corners` (src/collision.rs lines 207-216):
the projected `top_left, bottom_left, bottom_right, top_right` corners. -/
def CollisionInfo.get_world_corners (t : Transform) : Vec3 × Vec3 × Vec3 × Vec3 :=
  (t.project ⟨0, 0, 0⟩, t.project ⟨0, 1, 0⟩, t.project ⟨1, 1, 0⟩, t.project ⟨1, 0, 0⟩)

/-- The rational value of `f32::EPSILON`, i.e. `2^-23`. -/
def f32_epsilon : ℚ := 1 / 8388608

/-- The direction-vector determinant `denom` of
`CollisionInfo::line_segments_intersect` (src/collision.rs line 222). -/
def segment_denom (line1 line2 : Vec3 × Vec3) : ℚ :=
  let (p1, p2) := line1
  let (p3, p4) := line2
  (p1.x - p2.x) * (p3.y - p4.y) - (p1.y - p2.y) * (p3.x - p4.x)

/-- `CollisionInfo::line_segments_intersect` (src/collision.rs lines 218-238):
parametric segment intersection; `None` when `|denom| < f32::EPSILON`. -/
def CollisionInfo.line_segments_intersect (line1 line2 : Vec3 × Vec3) : Option Vec3 :=
  let (p1, p2) := line1
  let (p3, p4) := line2
  let denom := (p1.x - p2.x) * (p3.y - p4.y) - (p1.y - p2.y) * (p3.x - p4.x)
  if |denom| < f32_epsilon then
    none
  else
    let t := ((p1.x - p3.x) * (p3.y - p4.y) - (p1.y - p3.y) * (p3.x - p4.x)) / denom
    let u := -((p1.x - p2.x) * (p1.y - p3.y) - (p1.y - p2.y) * (p1.x - p3.x)) / denom
    if 0 ≤ t ∧ t ≤ 1 ∧ 0 ≤ u ∧ u ≤ 1 then
      some ⟨p1.x + t * (p2.x - p1.x), p1.y + t * (p2.y - p1.y), 0⟩
    else
      none

/-- `CollisionInfo::check_edge_intersections` (src/collision.rs lines 166-205):
for each of A's edges, collect (in B-edge order) the intersections with B's
four edges, keyed by A's edge identity. -/
def CollisionInfo.check_edge_intersections (a b : Transform) : EdgeCollision :=
  let (a0, a1, a2, a3) := CollisionInfo.get_world_corners a
  let (b0, b1, b2, b3) := CollisionInfo.get_world_corners b
  let b_edges : List (Vec3 × Vec3) := [(b0, b3), (b0, b1), (b1, b2), (b3, b2)]
  let hits := fun e => b_edges.filterMap (fun be => CollisionInfo.line_segments_intersect e be)
  { top_edge := hits (a0, a3)
    left_edge := hits (a0, a1)
    bottom_edge := hits (a1, a2)
    right_edge := hits (a3, a2) }

/-- `CollisionInfo::is_space_inside_other` (src/collision.rs lines 240-243). -/
def CollisionInfo.is_space_inside_other (inner outer : Transform) : Bool :=
  let vertices := CollisionInfo.check_vertices_in_space inner outer
  vertices.top_left && vertices.bottom_left && vertices.bottom_right && vertices.top_right

/-- `CollisionInfo::collect_intersection_points` (src/collision.rs lines 245-252). -/
def CollisionInfo.collect_intersection_points (e : EdgeCollision) : List Vec3 :=
  e.top_edge ++ e.left_edge ++ e.bottom_edge ++ e.right_edge

/-- The `CollisionInfo` value assembled by the mutation sequence in
`CollisionInfo::do_spaces_collide` (src/collision.rs lines 112-129). -/
def CollisionInfo.compute (a b : Transform) : CollisionInfo :=
  { my_vertices_inside := CollisionInfo.check_vertices_in_space a b
    other_vertices_inside := CollisionInfo.check_vertices_in_space b a
    my_edge_intersections := CollisionInfo.check_edge_intersections a b
    other_space_inside_me := CollisionInfo.is_space_inside_other b a
    i_am_inside_other := CollisionInfo.is_space_inside_other a b
    intersection_points :=
      CollisionInfo.collect_intersection_points (CollisionInfo.check_edge_intersections a b) }

/-- `CollisionInfo::do_spaces_collide` (src/collision.rs lines 111-136). -/
def CollisionInfo.do_spaces_collide (a b : Transform) : Option CollisionInfo :=
  let collision_info := CollisionInfo.compute a b
  if collision_info.has_collision then some collision_info else none

/-! Renderer model (src/renderer.rs).

GPU handles (device, surface, pipeline, buffers, bind groups) are external
resources; what the claims speak about is the sequence of operations issued
to the device queue and the fields `resize` touches.  The queue is modelled
by its operation log: buffer writes and command-buffer submissions, in
issue order.  Executing the log replays it in order, maintaining the two
shared uniform registers (transform, color); each submitted pass observes
the register values current at the moment it executes. -/

/-- Model of `renderer::EngineColor`. -/
structure EngineColor where
  r : ℚ
  g : ℚ
  b : ℚ
  a : ℚ
  deriving DecidableEq

/-- `EngineColor::WHITE`. -/
def EngineColor.WHITE : EngineColor := ⟨1, 1, 1, 1⟩

/-- `EngineColor::BLACK`. -/
def EngineColor.BLACK : EngineColor := ⟨0, 0, 0, 1⟩

/-- `EngineColor::RED`. -/
def EngineColor.RED : EngineColor := ⟨1, 0, 0, 1⟩

/-- `EngineColor::GREEN`. -/
def EngineColor.GREEN : EngineColor := ⟨0, 1, 0, 1⟩

/-- `EngineColor::BLUE`. -/
def EngineColor.BLUE : EngineColor := ⟨0, 0, 1, 1⟩

/-- A recorded command buffer: either a clearing pass (`Drawer::clear_slow`)
or one indexed draw pass (`Drawer::draw_geometry_slow`). -/
inductive DrawCmd where
  | clearPass (color : EngineColor)
  | drawIndexed (num_indices : Nat)
  deriving DecidableEq

/-- An operation issued to the device queue, in program order. -/
inductive QueueOp where
  | writeColorBuffer (c : EngineColor)
  | writeTransformBuffer (t : Transform)
  | submit (cbs : List DrawCmd)

/-- Model of `renderer::Drawer`: the borrowed orthographic default, the
pending (recorded, unsubmitted) command buffers, and the queue log so far. -/
structure DrawerState where
  ortho : Transform
  command_buffers : List DrawCmd
  queue_log : List QueueOp

/-- `Drawer::flush` (src/renderer.rs lines 616-623): if any command buffers
are pending, submit them (in recorded order, as one `submit`) and clear the
pending list. -/
def DrawerState.flush (s : DrawerState) : DrawerState :=
  if s.command_buffers.isEmpty then s
  else { s with command_buffers := [],
                queue_log := s.queue_log ++ [QueueOp.submit s.command_buffers] }

/-- `Drawer::set_color` (src/renderer.rs lines 538-545): flush, then write
the shared color uniform buffer. -/
def DrawerState.set_color (s : DrawerState) (color : EngineColor) : DrawerState :=
  let s1 := s.flush
  { s1 with queue_log := s1.queue_log ++ [QueueOp.writeColorBuffer color] }

/-- `Drawer::apply_transform` (src/renderer.rs lines 502-506): flush, then
write the shared transform uniform buffer. -/
def DrawerState.apply_transform (s : DrawerState) (transform : Transform) : DrawerState :=
  let s1 := s.flush
  { s1 with queue_log := s1.queue_log ++ [QueueOp.writeTransformBuffer transform] }

/-- `Drawer::clear_slow` (src/renderer.rs lines 508-536): record a clearing
pass onto the pending list (no submission). -/
def DrawerState.clear_slow (s : DrawerState) (color : EngineColor) : DrawerState :=
  { s with command_buffers := s.command_buffers ++ [DrawCmd.clearPass color] }

/-- `Drawer::draw_geometry_slow` (src/renderer.rs lines 547-604): apply the
given transform (default: the stored orthographic transform) and the given
color (default: opaque white), then record one indexed draw pass onto the
pending list. -/
def DrawerState.draw_geometry_slow (s : DrawerState) (num_indices : Nat)
    (transform : Option Transform) (color : Option EngineColor) : DrawerState :=
  let s1 := match transform with
    | some t => s.apply_transform t
    | none => s.apply_transform s.ortho
  let s2 := match color with
    | some c => s1.set_color c
    | none => s1.set_color ⟨1, 1, 1, 1⟩
  { s2 with command_buffers := s2.command_buffers ++ [DrawCmd.drawIndexed num_indices] }

/-- `Drawer::draw_square_slow` (src/renderer.rs lines 606-614): draw the
pre-baked unit-square buffers with 6 indices. -/
def DrawerState.draw_square_slow (s : DrawerState)
    (transform : Option Transform) (color : Option EngineColor) : DrawerState :=
  s.draw_geometry_slow 6 transform color

/-- A pass as the GPU executes it: the recorded command together with the
values of the shared uniform registers at execution time. -/
structure ExecutedPass where
  cmd : DrawCmd
  color : EngineColor
  transform : Transform

/-- GPU queue-timeline semantics: replay the queue log in order; buffer
writes update the shared registers, a submission executes its passes (in
recorded order) observing the registers current at that point. -/
def runQueue : List QueueOp → EngineColor → Transform → List ExecutedPass
  | [], _, _ => []
  | QueueOp.writeColorBuffer c :: rest, _, tr => runQueue rest c tr
  | QueueOp.writeTransformBuffer t :: rest, col, _ => runQueue rest col t
  | QueueOp.submit cbs :: rest, col, tr =>
      cbs.map (fun cb => ⟨cb, col, tr⟩) ++ runQueue rest col tr

/-- The retained `RenderingSystem` state touched by `resize`
(src/renderer.rs lines 347-362): the stored size, the surface
configuration's dimensions, the history of `surface.configure` calls, and
the resolution-dependent orthographic transform.  The GPU handles `resize`
never touches are external and omitted. -/
structure RenderingSystemState where
  size_width : Nat
  size_height : Nat
  config_width : Nat
  config_height : Nat
  surface_configure_log : List (Nat × Nat)
  ortographic_transform : Transform

/-- `RenderingSystem::resize` (src/renderer.rs lines 347-362). -/
def RenderingSystemState.resize (s : RenderingSystemState) (w h : Nat) : RenderingSystemState :=
  if 0 < w ∧ 0 < h then
    { s with
      size_width := w
      size_height := h
      config_width := max w 1
      config_height := max h 1
      surface_configure_log := s.surface_configure_log ++ [(max w 1, max h 1)]
      ortographic_transform :=
        Transform.from_matrix (Mat4.orthographic_rh 0 (w : ℚ) (h : ℚ) 0 (-100) 100) }
  else s

/-- The Drawer call sequence of spec section 8: `set_color(RED)`,
`draw_square()` (defaults), `set_color(BLUE)`, `draw_square()` (defaults),
`flush()`, starting from a fresh per-frame drawer. -/
def c2_sequence (ortho : Transform) : DrawerState :=
  let s0 : DrawerState := ⟨ortho, [], []⟩
  ((((s0.set_color EngineColor.RED).draw_square_slow none none).set_color
      EngineColor.BLUE).draw_square_slow none none).flush

/-- The spec's round trip: project the local corner `(0,0)` through `t`,
then map the result back through the inverse composition
(`identity.map_towards t`, whose matrix is `inverse(t.matrix)`). -/
def round_trip (t : Transform) : Vec3 :=
  (Transform.new.map_towards t).project (t.project ⟨0, 0, 0⟩)

/-- An invertible but non-affine matrix: the identity with last column
`(1, 0, 0, 2)`, so the projected corner's homogeneous weight is 2. -/
def cex_matrix : Mat4 :=
  !![1, 0, 0, 1;
     0, 1, 0, 0;
     0, 0, 1, 0;
     0, 0, 0, 2]

/-- The exact inverse of `cex_matrix`. -/
def cex_matrix_inv : Mat4 :=
  !![1, 0, 0, -(1/2);
     0, 1, 0, 0;
     0, 0, 1, 0;
     0, 0, 0, 1/2]

/-- A concrete rendering-system state for exercising `resize`. -/
def rss0 : RenderingSystemState := ⟨1, 1, 1, 1, [], Transform.new⟩

/-! Helper lemmas. -/

lemma Mat4.inverse_eq_nonsing_inv (m : Mat4) : m.inverse = m⁻¹ := by
  rw [Matrix.inv_def, Ring.inverse_eq_inv']
  rfl

lemma Mat4.inverse_mul_self (m : Mat4) (h : m.det ≠ 0) : m.inverse * m = 1 := by
  rw [Mat4.inverse_eq_nonsing_inv]
  exact Matrix.nonsing_inv_mul m (isUnit_iff_ne_zero.mpr h)

lemma Transform.map_towards_self_matrix (a : Transform) (h : a.matrix.det ≠ 0) :
    (a.map_towards a).matrix = 1 :=
  Mat4.inverse_mul_self a.matrix h

lemma Transform.project_of_matrix_one (t : Transform) (h : t.matrix = 1) (p : Vec3) :
    t.project p = p := by
  unfold Transform.project
  rw [h, Matrix.one_mulVec]
  cases p
  rfl

lemma Transform.new_matrix_det_ne_zero : Transform.new.matrix.det ≠ 0 := by
  rw [show Transform.new.matrix = (1 : Mat4) from rfl, Matrix.det_one]
  exact one_ne_zero

lemma check_vertices_in_space_self (a : Transform) (h : a.matrix.det ≠ 0) :
    CollisionInfo.check_vertices_in_space a a = ⟨true, true, true, true⟩ := by
  have hm := Transform.map_towards_self_matrix a h
  simp only [CollisionInfo.check_vertices_in_space,
    Transform.project_of_matrix_one _ hm]
  decide

lemma is_space_inside_other_self (a : Transform) (h : a.matrix.det ≠ 0) :
    CollisionInfo.is_space_inside_other a a = true := by
  simp [CollisionInfo.is_space_inside_other, check_vertices_in_space_self a h]

lemma do_spaces_collide_self (a : Transform) (h : a.matrix.det ≠ 0) :
    CollisionInfo.do_spaces_collide a a = some (CollisionInfo.compute a a) := by
  have hc : (CollisionInfo.compute a a).has_collision = true := by
    simp [CollisionInfo.has_collision, CollisionInfo.compute,
      check_vertices_in_space_self a h, VertexCollision.any]
  unfold CollisionInfo.do_spaces_collide
  simp [hc]

/-! Claim theorems. -/

/-- C1: `do_spaces_collide(a, b)` returns `Some(info)` exactly when
`has_collision()` holds of the info built from `a` and `b` (some
vertex-inside flag, some non-empty edge-intersection list, or a containment
flag), and `None` otherwise. -/
theorem claim_c1 (a b : Transform) :
    (CollisionInfo.do_spaces_collide a b).isSome = (CollisionInfo.compute a b).has_collision
  ∧ CollisionInfo.do_spaces_collide a b =
      (if (CollisionInfo.compute a b).has_collision then some (CollisionInfo.compute a b)
       else none) := by
  unfold CollisionInfo.do_spaces_collide
  cases h : (CollisionInfo.compute a b).has_collision <;> simp [h]

/-- C8: every Transform builder right-multiplies its operation matrix onto
the current matrix and returns a new value, so
`t.translate(v).scale(s)` has matrix `t.matrix * T(v) * S(s)` (the scale
applies before the translation in the mapped space). -/
theorem claim_c8 (t : Transform) (v s axis : Vec3) (c sn : ℚ) :
    (t.translate v).matrix = t.matrix * Mat4.from_translation v
  ∧ (t.rotate c sn axis).matrix = t.matrix * Mat4.from_axis_angle axis c sn
  ∧ (t.scale s).matrix = t.matrix * Mat4.from_scale s
  ∧ ((t.translate v).scale s).matrix = t.matrix * Mat4.from_translation v * Mat4.from_scale s :=
  ⟨rfl, rfl, rfl, rfl⟩

/-- C10: in the info produced by `do_spaces_collide`, each full-containment
flag equals the conjunction of the four matching vertex-inside flags,
because `is_space_inside_other` re-runs the same per-corner test as
`check_vertices_in_space`. -/
theorem claim_c10 (a b : Transform) (i : CollisionInfo)
    (h : CollisionInfo.do_spaces_collide a b = some i) :
    i.other_space_inside_me =
      (i.other_vertices_inside.top_left && i.other_vertices_inside.bottom_left
        && i.other_vertices_inside.bottom_right && i.other_vertices_inside.top_right)
  ∧ i.i_am_inside_other =
      (i.my_vertices_inside.top_left && i.my_vertices_inside.bottom_left
        && i.my_vertices_inside.bottom_right && i.my_vertices_inside.top_right) := by
  have hi : i = CollisionInfo.compute a b := by
    unfold CollisionInfo.do_spaces_collide at h
    by_cases hc : (CollisionInfo.compute a b).has_collision = true
    · simp only [hc, if_pos] at h
      exact (Option.some_inj.mp h).symm
    · simp [hc] at h
  subst hi
  exact ⟨rfl, rfl⟩

/-- C10 witness: the theorem applied to a self-collision of the identity
space, whose `do_spaces_collide` result is `Some`. -/
theorem claim_c10_witness :
    CollisionInfo.do_spaces_collide Transform.new Transform.new
      = some (CollisionInfo.compute Transform.new Transform.new)
  ∧ ((CollisionInfo.compute Transform.new Transform.new).other_space_inside_me =
      ((CollisionInfo.compute Transform.new Transform.new).other_vertices_inside.top_left
        && (CollisionInfo.compute Transform.new Transform.new).other_vertices_inside.bottom_left
        && (CollisionInfo.compute Transform.new Transform.new).other_vertices_inside.bottom_right
        && (CollisionInfo.compute Transform.new Transform.new).other_vertices_inside.top_right)
    ∧ (CollisionInfo.compute Transform.new Transform.new).i_am_inside_other =
      ((CollisionInfo.compute Transform.new Transform.new).my_vertices_inside.top_left
        && (CollisionInfo.compute Transform.new Transform.new).my_vertices_inside.bottom_left
        && (CollisionInfo.compute Transform.new Transform.new).my_vertices_inside.bottom_right
        && (CollisionInfo.compute Transform.new Transform.new).my_vertices_inside.top_right)) := by
  have hd := do_spaces_collide_self Transform.new Transform.new_matrix_det_ne_zero
  exact ⟨hd, claim_c10 Transform.new Transform.new _ hd⟩

/-- C4: testing an invertible space against itself yields `Some` with both
full-containment flags true and all four vertex-inside flags true in both
directions. -/
theorem claim_c4 (a : Transform) (h : a.matrix.det ≠ 0) :
    CollisionInfo.do_spaces_collide a a = some (CollisionInfo.compute a a)
  ∧ (CollisionInfo.compute a a).other_space_inside_me = true
  ∧ (CollisionInfo.compute a a).i_am_inside_other = true
  ∧ (CollisionInfo.compute a a).my_vertices_inside = ⟨true, true, true, true⟩
  ∧ (CollisionInfo.compute a a).other_vertices_inside = ⟨true, true, true, true⟩ := by
  have hv := check_vertices_in_space_self a h
  have hin := is_space_inside_other_self a h
  exact ⟨do_spaces_collide_self a h, hin, hin, hv, hv⟩

/-- C4 witness: the identity transform is invertible and collides with
itself with full containment. -/
theorem claim_c4_witness :
    Transform.new.matrix.det ≠ 0
  ∧ (CollisionInfo.do_spaces_collide Transform.new Transform.new
        = some (CollisionInfo.compute Transform.new Transform.new)
    ∧ (CollisionInfo.compute Transform.new Transform.new).other_space_inside_me = true
    ∧ (CollisionInfo.compute Transform.new Transform.new).i_am_inside_other = true
    ∧ (CollisionInfo.compute Transform.new Transform.new).my_vertices_inside
        = ⟨true, true, true, true⟩
    ∧ (CollisionInfo.compute Transform.new Transform.new).other_vertices_inside
        = ⟨true, true, true, true⟩) :=
  ⟨Transform.new_matrix_det_ne_zero, claim_c4 Transform.new Transform.new_matrix_det_ne_zero⟩

/-- C5: the vertex-containment test applies the inclusive range check
`0 <= x <= 1` and `0 <= y <= 1` to each projected corner, so a corner
exactly on the boundary (coordinate 0 or 1) counts as inside. -/
theorem claim_c5 (f t : Transform) (p : Vec3) :
    CollisionInfo.check_vertices_in_space f t =
      { top_left := in_unit_bounds ((f.map_towards t).project ⟨0, 0, 0⟩)
        bottom_left := in_unit_bounds ((f.map_towards t).project ⟨0, 1, 0⟩)
        bottom_right := in_unit_bounds ((f.map_towards t).project ⟨1, 1, 0⟩)
        top_right := in_unit_bounds ((f.map_towards t).project ⟨1, 0, 0⟩) }
  ∧ in_unit_bounds p = decide (0 ≤ p.x ∧ p.x ≤ 1 ∧ 0 ≤ p.y ∧ p.y ≤ 1)
  ∧ in_unit_bounds ⟨0, 0, 0⟩ = true ∧ in_unit_bounds ⟨0, 1, 0⟩ = true
  ∧ in_unit_bounds ⟨1, 0, 0⟩ = true ∧ in_unit_bounds ⟨1, 1, 0⟩ = true := by
  refine ⟨rfl, ?_, by decide, by decide, by decide, by decide⟩
  simp only [in_unit_bounds, Bool.decide_and, Bool.and_assoc]

lemma DrawerState.flush_command_buffers (s : DrawerState) : s.flush.command_buffers = [] := by
  unfold DrawerState.flush
  by_cases h : s.command_buffers.isEmpty
  · rw [if_pos h]
    exact List.isEmpty_iff.mp h
  · rw [if_neg h]

/-- C3: `set_color` and `apply_transform` flush all pending command buffers
before writing the shared uniform buffer; `flush` submits the pending
buffers in recorded order and leaves the pending list empty, so a uniform
write never happens while buffers are pending. -/
theorem claim_c3 (s : DrawerState) (c : EngineColor) (t : Transform) :
    (s.set_color c).queue_log = s.flush.queue_log ++ [QueueOp.writeColorBuffer c]
  ∧ (s.set_color c).command_buffers = []
  ∧ (s.apply_transform t).queue_log = s.flush.queue_log ++ [QueueOp.writeTransformBuffer t]
  ∧ (s.apply_transform t).command_buffers = []
  ∧ s.flush.command_buffers = []
  ∧ s.flush.queue_log = s.queue_log
      ++ (if s.command_buffers.isEmpty then [] else [QueueOp.submit s.command_buffers]) := by
  refine ⟨rfl, s.flush_command_buffers, rfl, s.flush_command_buffers,
    s.flush_command_buffers, ?_⟩
  unfold DrawerState.flush
  by_cases h : s.command_buffers.isEmpty
  · rw [if_pos h, if_pos h, List.append_nil]
  · rw [if_neg h, if_neg h]

lemma c2_sequence_run (ortho t0 : Transform) (c0 : EngineColor) :
    runQueue (c2_sequence ortho).queue_log c0 t0 =
      [⟨DrawCmd.drawIndexed 6, EngineColor.WHITE, ortho⟩,
       ⟨DrawCmd.drawIndexed 6, EngineColor.WHITE, ortho⟩] := rfl

/-- C2 counterexample: in the spec's sequence the two `draw_square()` calls
pass no explicit color, so `draw_geometry_slow` overwrites the color
uniform with opaque white before each draw; post-submission the two passes
observe WHITE and WHITE, not RED and BLUE. -/
theorem claim_c2_counterexample :
    ((runQueue (c2_sequence Transform.new).queue_log EngineColor.BLACK Transform.new).map
        ExecutedPass.color) = [EngineColor.WHITE, EngineColor.WHITE]
  ∧ ((runQueue (c2_sequence Transform.new).queue_log EngineColor.BLACK Transform.new).map
        ExecutedPass.color) ≠ [EngineColor.RED, EngineColor.BLUE] := by
  rw [c2_sequence_run]
  exact ⟨rfl, by decide⟩

/-- C2 (amended): the sequence {`set_color(RED)`, `draw_square()`,
`set_color(BLUE)`, `draw_square()`, `flush()`} submits exactly 2 recorded
draw passes (each the 6-index unit square), and both observe the default
opaque WHITE at execution time, written because the draws pass no explicit
color; this holds for any initial register contents and any orthographic
default. -/
theorem claim_c2 (ortho t0 : Transform) (c0 : EngineColor) :
    (runQueue (c2_sequence ortho).queue_log c0 t0).length = 2
  ∧ runQueue (c2_sequence ortho).queue_log c0 t0 =
      [⟨DrawCmd.drawIndexed 6, EngineColor.WHITE, ortho⟩,
       ⟨DrawCmd.drawIndexed 6, EngineColor.WHITE, ortho⟩] :=
  ⟨by rw [c2_sequence_run]; rfl, c2_sequence_run ortho t0 c0⟩

/-- C6: whenever the direction-vector determinant of two segments has
absolute value below `f32::EPSILON` (in particular for parallel or
collinear overlapping edges), `line_segments_intersect` reports no
intersection. -/
theorem claim_c6 (line1 line2 : Vec3 × Vec3)
    (h : |segment_denom line1 line2| < f32_epsilon) :
    CollisionInfo.line_segments_intersect line1 line2 = none := by
  obtain ⟨p1, p2⟩ := line1
  obtain ⟨p3, p4⟩ := line2
  unfold CollisionInfo.line_segments_intersect
  dsimp only
  rw [if_pos (show |(p1.x - p2.x) * (p3.y - p4.y) - (p1.y - p2.y) * (p3.x - p4.x)| < f32_epsilon
    from h)]

/-- C6 witness: two collinear overlapping horizontal segments have
determinant 0, below epsilon, and report no intersection. -/
theorem claim_c6_witness :
    |segment_denom (⟨0, 0, 0⟩, ⟨1, 0, 0⟩) (⟨1/2, 0, 0⟩, ⟨3/2, 0, 0⟩)| < f32_epsilon
  ∧ CollisionInfo.line_segments_intersect (⟨0, 0, 0⟩, ⟨1, 0, 0⟩) (⟨1/2, 0, 0⟩, ⟨3/2, 0, 0⟩)
      = none := by
  have h : |segment_denom (⟨0, 0, 0⟩, ⟨1, 0, 0⟩) ((⟨1/2, 0, 0⟩ : Vec3), (⟨3/2, 0, 0⟩ : Vec3))|
      < f32_epsilon := by
    norm_num [segment_denom, f32_epsilon]
  exact ⟨h, claim_c6 _ _ h⟩

/-- C7 (amended): `map_towards(other)` always returns the transform with
matrix `inverse(other.matrix) * self.matrix`; and for every invertible
transform `t` whose matrix has bottom-right entry 1 (in particular every
affine transform the builders construct), projecting local corner `(0,0)`
through `t` and back through the inverse composition returns the original
point exactly. -/
theorem claim_c7 (self other t : Transform) (hdet : t.matrix.det ≠ 0)
    (hw : t.matrix 3 3 = 1) :
    (self.map_towards other).matrix = Mat4.inverse other.matrix * self.matrix
  ∧ round_trip t = ⟨0, 0, 0⟩ := by
  refine ⟨rfl, ?_⟩
  unfold round_trip Transform.map_towards Transform.project
  show Vec4.truncate ((t.matrix.inverse * Transform.new.matrix).mulVec
      ((Vec4.truncate (t.matrix.mulVec (Vec3.extend ⟨0, 0, 0⟩ 1))).extend 1)) = ⟨0, 0, 0⟩
  rw [show Transform.new.matrix = (1 : Mat4) from rfl, mul_one]
  have hext : (Vec4.truncate (t.matrix.mulVec (Vec3.extend ⟨0, 0, 0⟩ 1))).extend 1
      = t.matrix.mulVec (Vec3.extend ⟨0, 0, 0⟩ 1) := by
    funext i
    fin_cases i
    · rfl
    · rfl
    · rfl
    · show (1 : ℚ) = t.matrix.mulVec (Vec3.extend ⟨0, 0, 0⟩ 1) 3
      simp [Matrix.mulVec, Matrix.dotProduct, Fin.sum_univ_four, Vec3.extend,
        Matrix.vecHead, Matrix.vecTail, hw]
  rw [hext, Matrix.mulVec_mulVec, Mat4.inverse_mul_self t.matrix hdet, Matrix.one_mulVec]
  rfl

/-- C7 witness: the identity transform is invertible with bottom-right
entry 1, and its round trip returns the original corner. -/
theorem claim_c7_witness :
    (Transform.new.matrix.det ≠ 0 ∧ Transform.new.matrix 3 3 = 1)
  ∧ ((Transform.new.map_towards Transform.new).matrix
        = Mat4.inverse Transform.new.matrix * Transform.new.matrix
    ∧ round_trip Transform.new = ⟨0, 0, 0⟩) :=
  ⟨⟨Transform.new_matrix_det_ne_zero, Matrix.one_apply_eq 3⟩,
    claim_c7 Transform.new Transform.new Transform.new
      Transform.new_matrix_det_ne_zero (Matrix.one_apply_eq 3)⟩

/-- C7 counterexample: the claim as stated fails for a general invertible
transform: `cex_matrix` (identity with last column `(1,0,0,2)`) is
invertible, yet the round trip of local corner `(0,0)` returns
`(1/2, 0, 0)`, not the original point, because truncation discards the
homogeneous weight 2. -/
theorem claim_c7_counterexample :
    (Transform.from_matrix cex_matrix).matrix.det ≠ 0
  ∧ round_trip (Transform.from_matrix cex_matrix) ≠ ⟨0, 0, 0⟩ := by
  have hmul : cex_matrix * cex_matrix_inv = 1 := by
    ext i j
    fin_cases i <;> fin_cases j <;>
      simp [cex_matrix, cex_matrix_inv, Matrix.mul_apply, Fin.sum_univ_four,
        Matrix.one_apply, Matrix.vecHead, Matrix.vecTail]
  have hdet : cex_matrix.det ≠ 0 :=
    IsUnit.ne_zero (Matrix.isUnit_det_of_right_inverse hmul)
  have hinv : cex_matrix.inverse = cex_matrix_inv := by
    rw [Mat4.inverse_eq_nonsing_inv]
    exact Matrix.inv_eq_right_inv hmul
  refine ⟨hdet, ?_⟩
  unfold round_trip Transform.map_towards Transform.project
  show Vec4.truncate (((Transform.from_matrix cex_matrix).matrix.inverse
        * Transform.new.matrix).mulVec
      ((Vec4.truncate ((Transform.from_matrix cex_matrix).matrix.mulVec
        (Vec3.extend ⟨0, 0, 0⟩ 1))).extend 1)) ≠ ⟨0, 0, 0⟩
  rw [show (Transform.from_matrix cex_matrix).matrix = cex_matrix from rfl,
    show Transform.new.matrix = (1 : Mat4) from rfl, mul_one, hinv]
  have hval : Vec4.truncate (cex_matrix_inv.mulVec
      ((Vec4.truncate (cex_matrix.mulVec (Vec3.extend ⟨0, 0, 0⟩ 1))).extend 1))
      = (⟨1/2, 0, 0⟩ : Vec3) := by
    simp [Vec4.truncate, Vec3.extend, Matrix.mulVec, Matrix.dotProduct, Fin.sum_univ_four,
      cex_matrix, cex_matrix_inv, Matrix.vecHead, Matrix.vecTail]
    norm_num
  rw [hval]
  intro hcontra
  have hx := congrArg Vec3.x hcontra
  norm_num at hx

/-- C9: `resize` with a zero dimension leaves the rendering-system state
unchanged; with both dimensions positive it stores the new size,
reconfigures the surface at the new width and height, and recomputes the
orthographic projection as `orthographic_rh(0, width, height, 0, -100, 100)`. -/
theorem claim_c9 (s : RenderingSystemState) (w h : Nat) :
    (w = 0 ∨ h = 0 → s.resize w h = s)
  ∧ (0 < w → 0 < h → s.resize w h =
      { s with
        size_width := w
        size_height := h
        config_width := w
        config_height := h
        surface_configure_log := s.surface_configure_log ++ [(w, h)]
        ortographic_transform :=
          Transform.from_matrix (Mat4.orthographic_rh 0 (w : ℚ) (h : ℚ) 0 (-100) 100) }) := by
  constructor
  · intro h0
    unfold RenderingSystemState.resize
    rw [if_neg]
    rcases h0 with h0 | h0 <;> simp [h0]
  · intro hw hh
    unfold RenderingSystemState.resize
    rw [if_pos ⟨hw, hh⟩, Nat.max_eq_left hw, Nat.max_eq_left hh]

/-- C9 witness: the theorem applied to a concrete state, at a zero height
and at dimensions 3 by 4. -/
theorem claim_c9_witness :
    rss0.resize 0 5 = rss0
  ∧ rss0.resize 3 4 =
      { rss0 with
        size_width := 3
        size_height := 4
        config_width := 3
        config_height := 4
        surface_configure_log := rss0.surface_configure_log ++ [(3, 4)]
        ortographic_transform :=
          Transform.from_matrix
            (Mat4.orthographic_rh 0 ((3 : Nat) : ℚ) ((4 : Nat) : ℚ) 0 (-100) 100) } :=
  ⟨(claim_c9 rss0 0 5).1 (Or.inl rfl),
    (claim_c9 rss0 3 4).2 (by decide) (by decide)⟩
